/-
Verification of the autothrottle throttle-decision engine (kafka-kit,
cmd/autothrottle). The Go source is shallowly embedded: float64 becomes ℚ,
Go maps become functions `String → Option ℚ` built by explicit insertion
(so insertion order — and hence key collisions between the capacity map and
the sentinel scalar keys — is preserved), and fallible functions return the
pair (value, optional error) exactly as the Go code does. A read of a
missing key from a Go map yields the zero value 0.0; `limGet` mirrors that.
-/
import Mathlib

namespace Autothrottle

/-- Broker record (kafkametrics.Broker), restricted to the fields the
Limits engine reads: instance type and observed outbound (NetTX) /
inbound (NetRX) rates in MB/s. -/
structure Broker where
  instanceType : String
  netTX : ℚ
  netRX : ℚ

/-- Limits is the Go `map[string]float64`: instance-type capacities and
the four sentinel scalar keys share one key space. -/
abbrev Limits := String → Option ℚ

/-- Go map read with zero value: `l[k]` is 0.0 when `k` is absent. -/
def limGet (l : Limits) (k : String) : ℚ := (l k).getD 0

/-- Model of Go math.Max on the embedded rationals (kernel-computable, unlike
the lattice `max`, so witnesses can evaluate by `decide`). -/
def goMax (a b : ℚ) : ℚ := if a ≤ b then b else a

/-- Go map assignment `m[k] = v`. -/
def mapInsert (m : Limits) (k : String) (v : ℚ) : Limits :=
  fun x => if x = k then some v else m x

/-- NewLimitsConfig from api.go: the four scalar fields plus the
instance-type → capacity map (modelled as the entry list the Go range
loop iterates over; later entries overwrite earlier ones, as in a map). -/
structure NewLimitsConfig where
  minimum : ℚ
  maximum : ℚ
  sourceMaximum : ℚ
  destinationMaximum : ℚ
  capacityMap : List (String × ℚ)

/-- The `for k, v := range c.CapacityMap { lim[k] = v }` loop. -/
def mergeCapacity (base : Limits) (entries : List (String × ℚ)) : Limits :=
  entries.foldl (fun m p => mapInsert m p.1 p.2) base

/-- NewLimits (api.go): validate the scalars, seed the map with the four
sentinel keys, then merge the capacity map over it. -/
def NewLimits (c : NewLimitsConfig) : Except String Limits :=
  if c.minimum ≤ 0 then .error "minimum must be > 0"
  else if c.maximum ≤ 0 ∨ 100 < c.maximum then
    .error "maximum must be > 0 and < 100"
  else if c.sourceMaximum ≤ 0 ∨ 100 < c.sourceMaximum then
    .error "source maximum must be > 0 and < 100"
  else if c.destinationMaximum ≤ 0 ∨ 100 < c.destinationMaximum then
    .error "destination maximum must be > 0 and < 100"
  else
    let lim : Limits := fun k =>
      if k = "minimum" then some c.minimum
      else if k = "maximum" then some c.maximum
      else if k = "srcMax" then some c.sourceMaximum
      else if k = "dstMax" then some c.destinationMaximum
      else none
    .ok (mergeCapacity lim c.capacityMap)

/-- Whether a NewLimits result is the error branch (Go: non-nil error,
nil Limits). -/
def limitsIsError (r : Except String Limits) : Bool :=
  match r with
  | .error _ => true
  | .ok _ => false

/-- The Limits value of a successful NewLimits result (empty map
otherwise); lets witnesses name the constructed map without binders. -/
def limOf (r : Except String Limits) : Limits :=
  match r with
  | .ok l => l
  | .error _ => fun _ => none

/-- Limits.headroom (api.go). Nil broker and unknown instance type
return (l["minimum"], error); otherwise the headroom formula. -/
def headroom (l : Limits) (b : Option Broker) (t : ℚ) : ℚ × Option String :=
  match b with
  | none => (limGet l "minimum", some "Nil broker provided")
  | some br =>
    match l br.instanceType with
    | some capacity =>
      let nonThrottleUtil := goMax (br.netTX - t) 0
      let overCap := goMax (br.netTX - capacity) 0
      (goMax ((capacity - nonThrottleUtil - overCap) * (limGet l "maximum" / 100))
        (limGet l "minimum"), none)
    | none => (limGet l "minimum", some "Unknown instance type")

/-- Outcome of Limits.replicationHeadroom. The Go function takes a
*kafkametrics.Broker and, unlike headroom, never checks it for nil: for a
valid replica type it reads b.NetTX / b.NetRX straight away, so a nil
broker is a nil-pointer dereference — modelled by the `panic`
constructor. `ok rate err` is the ordinary (float64, error) return. -/
inductive RHResult where
  | panic
  | ok (rate : ℚ) (err : Option String)
deriving DecidableEq

/-- Limits.replicationHeadroom (api.go). The replica-type switch runs
first ("leader" → NetTX/srcMax, "follower" → NetRX/dstMax, anything else
returns (0, invalid-role error) before the broker is touched); then the
capacity lookup and the headroom formula, whose non-throttle-utilization
term reads b.NetTX for both roles. -/
def replicationHeadroom (l : Limits) (b : Option Broker) (rt : String)
    (prevThrottle : ℚ) : RHResult :=
  if rt = "leader" ∨ rt = "follower" then
    match b with
    | none => .panic
    | some br =>
      let currNetUtilization := if rt = "leader" then br.netTX else br.netRX
      let maxRatio := if rt = "leader" then limGet l "srcMax" else limGet l "dstMax"
      match l br.instanceType with
      | some capacity =>
        let nonThrottleUtil := goMax (br.netTX - prevThrottle) 0
        let overCap := goMax (currNetUtilization - capacity) 0
        .ok (goMax ((capacity - nonThrottleUtil - overCap) * ( maxRatio / 100))
          (limGet l "minimum")) none
      | none => .ok (limGet l "minimum") (some "Unknown instance type")
  else .ok 0 (some "invalid replica type")

/-- A concrete Limits map used by witnesses: the validated scalars plus
one instance type, as NewLimits would build for a collision-free config. -/
def lims0 : Limits := fun k =>
  if k = "minimum" then some 10
  else if k = "maximum" then some 90
  else if k = "srcMax" then some 90
  else if k = "dstMax" then some 80
  else if k = "d2.2xlarge" then some 120
  else none

/-- A concrete broker of the known instance type, for witnesses. -/
def brok0 : Broker := { instanceType := "d2.2xlarge", netTX := 80, netRX := 60 }

/-- A broker whose instance type has no capacity entry in lims0. -/
def brokUnknown : Broker := { instanceType := "m5.large", netTX := 80, netRX := 60 }

/-- The throttle rate carried by a replicationHeadroom outcome (0 for the
nil-dereference crash, which returns nothing). -/
def rhRate : RHResult → ℚ
  | .panic => 0
  | .ok r _ => r

/-- Config with every portion at the boundary value 100 (valid). -/
def cfgBoundary : NewLimitsConfig := ⟨10, 100, 100, 100, []⟩

/-- Config with a portion of 100.0001 (invalid). -/
def cfgOverBoundary : NewLimitsConfig := ⟨10, 100.0001, 90, 90, []⟩

/-- Config with a non-positive minimum (invalid), for the C7 witness. -/
def cfgBadMin : NewLimitsConfig := ⟨0, 90, 90, 90, []⟩

/-- The value the Go range loop over the capacity map leaves behind for
key k: the last entry for k in iteration order, if any. -/
def lastVal (entries : List (String × ℚ)) (k : String) : Option ℚ :=
  entries.reverse.lookup k

/-- A valid config whose capacity map also contains the sentinel key
"minimum": its entry overwrites the validated scalar 10 with 42. -/
def cfgCollide : NewLimitsConfig :=
  ⟨10, 90, 90, 90, [("d2.2xlarge", 120), ("minimum", 42)]⟩

/-- Decimal digit run for the Atoi model: none when the char list is
empty or contains a non-digit. -/
def decDigits (cs : List Char) : Option Nat :=
  if cs = [] then none
  else
    cs.foldl (fun acc c =>
      match acc with
      | none => none
      | some n => if c.isDigit then some (n * 10 + (c.toNat - 48)) else none)
      (some 0)

/-- Model of Go strconv.Atoi: optional leading sign, one or more decimal
digits, value within the 64-bit int range; anything else is an error
(none). -/
def atoi (s : String) : Option Int :=
  let core : List Char → Int → Option Int := fun cs sign =>
    match decDigits cs with
    | none => none
    | some n =>
      let v : Int := sign * n
      if -9223372036854775808 ≤ v ∧ v ≤ 9223372036854775807 then some v else none
  match s.data with
  | '+' :: rest => core rest 1
  | '-' :: rest => core rest (-1)
  | cs => core cs 1

/-- ThrottleOverrideConfig: the structured override record
{rate MB/s (0 = unset), autoRemove}. -/
structure ThrottleOverrideConfig where
  rate : Int
  autoRemove : Bool
deriving DecidableEq

/-- Content of the override znode. Modelled from the spec:
setThrottleOverride / getThrottleOverride are not under src/; per §4.2
they serialize and deserialize the structured ThrottleOverrideConfig as a
whole-record replacement. The structured serialization is kept abstract
as the `cfg` constructor (it is a JSON object, never a bare integer, so
strconv.Atoi fails on it); `str` is raw string content such as the legacy
bare-integer format. -/
inductive ZnodeContent where
  | str (s : String)
  | cfg (c : ThrottleOverrideConfig)
deriving DecidableEq

/-- The legacy-format migration in initAPI (api.go): when the override
znode exists, its content is read; if strconv.Atoi accepts it, the record
is overwritten via setThrottleOverride with that rate (AutoRemove takes
the Go zero value, false); otherwise the record is left alone. -/
def initAPIMigrate : ZnodeContent → ZnodeContent
  | .str s =>
    match atoi s with
    | some rate => .cfg ⟨rate, false⟩
    | none => .str s
  | .cfg c => .cfg c

/-- Go url.Values.Get over the request query: first value for the key,
or the empty string when the key is absent. -/
def queryGet (q : List (String × String)) (k : String) : String :=
  match q.lookup k with
  | some v => v
  | none => ""

/-- Model of Go strconv.ParseBool: accepts exactly the twelve literal
tokens, errors on everything else. -/
def parseBool (s : String) : Option Bool :=
  if s = "1" ∨ s = "t" ∨ s = "T" ∨ s = "true" ∨ s = "TRUE" ∨ s = "True" then
    some true
  else if s = "0" ∨ s = "f" ∨ s = "F" ∨ s = "false" ∨ s = "FALSE" ∨ s = "False" then
    some false
  else none

/-- Modelled from the spec: parseRateParam is not under src/; per §4.3 the
rate query parameter is a required integer, and a missing or non-integer
value is a parse error whose text the handler writes to the response. -/
def parseRateParam (q : List (String × String)) : Except String Int :=
  match atoi (queryGet q "rate") with
  | some n => .ok n
  | none => .error "invalid rate parameter\n"

/-- Modelled from the spec: parseAutoRemoveParam is not under src/; per
§4.3 the autoremove query parameter is an optional bool — absence means
false, an unparseable value is a parse error. -/
def parseAutoRemoveParam (q : List (String × String)) : Except String Bool :=
  if queryGet q "autoremove" = "" then .ok false
  else
    match parseBool (queryGet q "autoremove") with
    | some b => .ok b
    | none => .error "invalid autoremove parameter\n"

/-- setThrottle (api.go): parse the rate parameter, then the autoremove
parameter; on either parse error write the error text to the response and
return without calling setThrottleOverride, so the stored record is
unchanged; otherwise overwrite the record (setThrottleOverride is not
under src/; modelled from the spec as whole-record replacement) and
report success. Returns (response body, resulting store). -/
def setThrottle (q : List (String × String)) (store : ZnodeContent) :
    String × ZnodeContent :=
  match parseRateParam q with
  | .error e => (e, store)
  | .ok rate =>
    match parseAutoRemoveParam q with
    | .error e => (e, store)
    | .ok autoRemove =>
      ("throttle successfully set to " ++ toString rate ++ "MB/s, autoremove==" ++
        (if autoRemove then "true" else "false") ++ "\n",
       .cfg ⟨rate, autoRemove⟩)

theorem goMax_eq_max (a b : ℚ) : goMax a b = max a b := by
  simp [goMax, max_def]

theorem headroom_nil (l : Limits) (t : ℚ) :
    headroom l none t = (limGet l "minimum", some "Nil broker provided") := rfl

theorem headroom_known (l : Limits) (br : Broker) (t cap : ℚ)
    (h : l br.instanceType = some cap) :
    headroom l (some br) t =
      (goMax ((cap - goMax (br.netTX - t) 0 - goMax (br.netTX - cap) 0) *
        (limGet l "maximum" / 100)) (limGet l "minimum"), none) := by
  simp [headroom, h]

theorem headroom_unknown (l : Limits) (br : Broker) (t : ℚ)
    (h : l br.instanceType = none) :
    headroom l (some br) t = (limGet l "minimum", some "Unknown instance type") := by
  simp [headroom, h]

theorem rh_leader_known (l : Limits) (br : Broker) (t cap : ℚ)
    (h : l br.instanceType = some cap) :
    replicationHeadroom l (some br) "leader" t =
      .ok (goMax ((cap - goMax (br.netTX - t) 0 - goMax (br.netTX - cap) 0) *
        (limGet l "srcMax" / 100)) (limGet l "minimum")) none := by
  simp [replicationHeadroom, h]

theorem rh_follower_known (l : Limits) (br : Broker) (t cap : ℚ)
    (h : l br.instanceType = some cap) :
    replicationHeadroom l (some br) "follower" t =
      .ok (goMax ((cap - goMax (br.netTX - t) 0 - goMax (br.netRX - cap) 0) *
        (limGet l "dstMax" / 100)) (limGet l "minimum")) none := by
  simp [replicationHeadroom, h]

theorem rh_invalid_role (l : Limits) (b : Option Broker) (rt : String) (t : ℚ)
    (h1 : rt ≠ "leader") (h2 : rt ≠ "follower") :
    replicationHeadroom l b rt t = .ok 0 (some "invalid replica type") := by
  simp [replicationHeadroom, h1, h2]

theorem rh_nil_broker (l : Limits) (rt : String) (t : ℚ)
    (h : rt = "leader" ∨ rt = "follower") :
    replicationHeadroom l none rt t = .panic := by
  rcases h with h | h <;> subst h <;> rfl

theorem rh_unknown (l : Limits) (br : Broker) (rt : String) (t : ℚ)
    (hrt : rt = "leader" ∨ rt = "follower") (h : l br.instanceType = none) :
    replicationHeadroom l (some br) rt t =
      .ok (limGet l "minimum") (some "Unknown instance type") := by
  rcases hrt with hrt | hrt <;> subst hrt <;> simp [replicationHeadroom, h]

theorem min_le_goMax (x m : ℚ) : m ≤ goMax x m := by
  rw [goMax_eq_max]; exact le_max_right x m

/-- The headroom core, as a function of the inputs the monotonicity claim
varies: utilization u, previous rate t, for fixed capacity, ratio, floor. -/
theorem headroom_core_mono_util (cap t ratio m u₁ u₂ : ℚ)
    (hr : 0 ≤ ratio) (h : u₁ ≤ u₂) :
    goMax ((cap - goMax (u₂ - t) 0 - goMax (u₂ - cap) 0) * ratio) m ≤
    goMax ((cap - goMax (u₁ - t) 0 - goMax (u₁ - cap) 0) * ratio) m := by
  simp only [goMax_eq_max]
  refine max_le_max ?_ le_rfl
  refine mul_le_mul_of_nonneg_right ?_ hr
  have h1 : max (u₁ - t) 0 ≤ max (u₂ - t) 0 := max_le_max (by linarith) le_rfl
  have h2 : max (u₁ - cap) 0 ≤ max (u₂ - cap) 0 := max_le_max (by linarith) le_rfl
  linarith

theorem headroom_core_mono_prev (cap u ratio m t₁ t₂ : ℚ)
    (hr : 0 ≤ ratio) (h : t₁ ≤ t₂) :
    goMax ((cap - goMax (u - t₁) 0 - goMax (u - cap) 0) * ratio) m ≤
    goMax ((cap - goMax (u - t₂) 0 - goMax (u - cap) 0) * ratio) m := by
  simp only [goMax_eq_max]
  refine max_le_max ?_ le_rfl
  refine mul_le_mul_of_nonneg_right ?_ hr
  have h1 : max (u - t₂) 0 ≤ max (u - t₁) 0 := max_le_max (by linarith) le_rfl
  linarith

/-- C1: for every non-nil broker whose instance type has a capacity entry,
and every valid replica role, the rate returned by headroom and by
replicationHeadroom is at least the configured minimum, for all
utilization and previous-rate inputs. -/
theorem claim1_rates_at_least_minimum (l : Limits) (br : Broker)
    (t cap : ℚ) (rt : String)
    (hcap : l br.instanceType = some cap)
    (hrt : rt = "leader" ∨ rt = "follower") :
    limGet l "minimum" ≤ (headroom l (some br) t).1 ∧
    limGet l "minimum" ≤ rhRate (replicationHeadroom l (some br) rt t) := by
  constructor
  · rw [headroom_known l br t cap hcap]
    exact min_le_goMax _ _
  · rcases hrt with hrt | hrt <;> subst hrt
    · rw [rh_leader_known l br t cap hcap]
      exact min_le_goMax _ _
    · rw [rh_follower_known l br t cap hcap]
      exact min_le_goMax _ _

theorem claim1_witness :
    lims0 brok0.instanceType = some 120 ∧
    ("leader" = "leader" ∨ "leader" = "follower") ∧
    (limGet lims0 "minimum" ≤ (headroom lims0 (some brok0) 30).1 ∧
     limGet lims0 "minimum" ≤ rhRate (replicationHeadroom lims0 (some brok0) "leader" 30)) :=
  ⟨rfl, Or.inl rfl,
    claim1_rates_at_least_minimum lims0 brok0 30 120 "leader" rfl (Or.inl rfl)⟩

/-- C3: for every non-nil broker of known instance type and any previous
rate t, headroom returns
max((capacity − max(outbound − t, 0) − max(outbound − capacity, 0)) ×
(maximumPortion/100), minimum) and no error. -/
theorem claim3_headroom_formula (l : Limits) (br : Broker) (t cap : ℚ)
    (hcap : l br.instanceType = some cap) :
    headroom l (some br) t =
      (max ((cap - max (br.netTX - t) 0 - max (br.netTX - cap) 0) *
        (limGet l "maximum" / 100)) (limGet l "minimum"), none) := by
  rw [headroom_known l br t cap hcap]
  simp [goMax_eq_max]

theorem claim3_witness :
    lims0 brok0.instanceType = some 120 ∧
    headroom lims0 (some brok0) 30 =
      (max ((120 - max (brok0.netTX - 30) 0 - max (brok0.netTX - 120) 0) *
        (limGet lims0 "maximum" / 100)) (limGet lims0 "minimum"), none) :=
  ⟨rfl, claim3_headroom_formula lims0 brok0 30 120 rfl⟩

/-- C4: replicationHeadroom with the source role ("leader") selects
outbound utilization and the source max portion; with the destination
role ("follower") it selects inbound utilization and the destination max
portion; any other role value returns 0 with an invalid-role error. -/
theorem claim4_role_selection (l : Limits) (br : Broker) (t cap : ℚ)
    (hcap : l br.instanceType = some cap) :
    (replicationHeadroom l (some br) "leader" t =
      .ok (max ((cap - max (br.netTX - t) 0 - max (br.netTX - cap) 0) *
        (limGet l "srcMax" / 100)) (limGet l "minimum")) none) ∧
    (replicationHeadroom l (some br) "follower" t =
      .ok (max ((cap - max (br.netTX - t) 0 - max (br.netRX - cap) 0) *
        (limGet l "dstMax" / 100)) (limGet l "minimum")) none) ∧
    (∀ rt, rt ≠ "leader" → rt ≠ "follower" → ∀ b : Option Broker,
      replicationHeadroom l b rt t = .ok 0 (some "invalid replica type")) := by
  refine ⟨?_, ?_, ?_⟩
  · rw [rh_leader_known l br t cap hcap]; simp [goMax_eq_max]
  · rw [rh_follower_known l br t cap hcap]; simp [goMax_eq_max]
  · intro rt h1 h2 b; exact rh_invalid_role l b rt t h1 h2

theorem claim4_witness :
    lims0 brok0.instanceType = some 120 ∧
    replicationHeadroom lims0 (some brok0) "leader" 30 =
      .ok (max ((120 - max (brok0.netTX - 30) 0 - max (brok0.netTX - 120) 0) *
        (limGet lims0 "srcMax" / 100)) (limGet lims0 "minimum")) none ∧
    replicationHeadroom lims0 (some brok0) "other" 30 =
      .ok 0 (some "invalid replica type") :=
  ⟨rfl, (claim4_role_selection lims0 brok0 30 120 rfl).1,
    (claim4_role_selection lims0 brok0 30 120 rfl).2.2 "other"
      (by decide) (by decide) (some brok0)⟩

/-- C5: in replicationHeadroom, for both valid roles the
non-throttle-utilization term is max(outbound − previousRate, 0) —
computed from outbound utilization regardless of role — while the
over-capacity term uses the role-selected utilization against capacity. -/
theorem claim5_nonthrottle_always_outbound (l : Limits) (br : Broker)
    (t cap : ℚ) (hcap : l br.instanceType = some cap) :
    ∀ rt, rt = "leader" ∨ rt = "follower" →
      replicationHeadroom l (some br) rt t =
        .ok (max ((cap - max (br.netTX - t) 0 -
            max ((if rt = "leader" then br.netTX else br.netRX) - cap) 0) *
          ((if rt = "leader" then limGet l "srcMax" else limGet l "dstMax") / 100))
          (limGet l "minimum")) none := by
  intro rt hrt
  rcases hrt with hrt | hrt <;> subst hrt
  · rw [rh_leader_known l br t cap hcap]; simp [goMax_eq_max]
  · rw [rh_follower_known l br t cap hcap]; simp [goMax_eq_max]

theorem claim5_witness :
    lims0 brok0.instanceType = some 120 ∧
    ("follower" = "leader" ∨ "follower" = "follower") ∧
    replicationHeadroom lims0 (some brok0) "follower" 30 =
      .ok (max ((120 - max (brok0.netTX - 30) 0 -
          max ((if "follower" = "leader" then brok0.netTX else brok0.netRX) - 120) 0) *
        ((if "follower" = "leader" then limGet lims0 "srcMax"
          else limGet lims0 "dstMax") / 100)) (limGet lims0 "minimum")) none :=
  ⟨rfl, Or.inr rfl,
    claim5_nonthrottle_always_outbound lims0 brok0 30 120 rfl "follower" (Or.inr rfl)⟩

/-- C6: for a broker of known instance type, with capacity and previous
rate fixed, the headroom rate is non-increasing in outbound utilization;
with utilization fixed it is non-decreasing in the previous rate; and it
is clamped below at the configured minimum. Hypothesis: the configured
maximum portion is non-negative (NewLimits validates it to be in
(0, 100]). -/
theorem claim6_monotonicity (l : Limits) (ty : String)
    (cap rx t u u₁ u₂ t₁ t₂ : ℚ)
    (hcap : l ty = some cap) (hport : 0 ≤ limGet l "maximum")
    (hu : u₁ ≤ u₂) (ht : t₁ ≤ t₂) :
    (headroom l (some ⟨ty, u₂, rx⟩) t).1 ≤ (headroom l (some ⟨ty, u₁, rx⟩) t).1 ∧
    (headroom l (some ⟨ty, u, rx⟩) t₁).1 ≤ (headroom l (some ⟨ty, u, rx⟩) t₂).1 ∧
    limGet l "minimum" ≤ (headroom l (some ⟨ty, u, rx⟩) t).1 := by
  have hr : 0 ≤ limGet l "maximum" / 100 := by positivity
  refine ⟨?_, ?_, ?_⟩
  · rw [headroom_known l ⟨ty, u₁, rx⟩ t cap hcap, headroom_known l ⟨ty, u₂, rx⟩ t cap hcap]
    exact headroom_core_mono_util cap t _ _ u₁ u₂ hr hu
  · rw [headroom_known l ⟨ty, u, rx⟩ t₁ cap hcap, headroom_known l ⟨ty, u, rx⟩ t₂ cap hcap]
    exact headroom_core_mono_prev cap u _ _ t₁ t₂ hr ht
  · rw [headroom_known l ⟨ty, u, rx⟩ t cap hcap]
    exact min_le_goMax _ _

theorem claim6_witness :
    lims0 "d2.2xlarge" = some 120 ∧ (0 : ℚ) ≤ limGet lims0 "maximum" ∧
    (80 : ℚ) ≤ 95 ∧ (20 : ℚ) ≤ 30 ∧
    ((headroom lims0 (some ⟨"d2.2xlarge", 95, 60⟩) 25).1 ≤
      (headroom lims0 (some ⟨"d2.2xlarge", 80, 60⟩) 25).1 ∧
     (headroom lims0 (some ⟨"d2.2xlarge", 85, 60⟩) 20).1 ≤
      (headroom lims0 (some ⟨"d2.2xlarge", 85, 60⟩) 30).1 ∧
     limGet lims0 "minimum" ≤ (headroom lims0 (some ⟨"d2.2xlarge", 85, 60⟩) 25).1) :=
  ⟨rfl, by norm_num +decide [limGet, lims0], by norm_num, by norm_num,
    claim6_monotonicity lims0 "d2.2xlarge" 120 60 25 85 80 95 20 30 rfl
      (by norm_num +decide [limGet, lims0]) (by norm_num) (by norm_num)⟩

/-- C2 counterexample: replicationHeadroom performs no nil-broker check —
with the valid role "leader" and an absent broker it dereferences the nil
pointer (modelled as panic) instead of returning (minimum, error). -/
theorem claim2_counterexample :
    replicationHeadroom lims0 none "leader" 0 = RHResult.panic := rfl

/-- C2 (amended): headroom returns exactly the configured minimum with an
error for a nil broker or an unknown instance type; replicationHeadroom
returns exactly the minimum with an error for an unknown instance type
under a valid role, but with a nil broker it panics (valid role) or
returns 0 with the invalid-role error (any other role) — it never returns
the minimum for a nil broker. -/
theorem claim2_amended (l : Limits) (br : Broker) (rt rt' : String) (t : ℚ)
    (hrt : rt = "leader" ∨ rt = "follower")
    (hrt' : rt' ≠ "leader" ∧ rt' ≠ "follower")
    (hunk : l br.instanceType = none) :
    headroom l none t = (limGet l "minimum", some "Nil broker provided") ∧
    headroom l (some br) t = (limGet l "minimum", some "Unknown instance type") ∧
    replicationHeadroom l (some br) rt t =
      .ok (limGet l "minimum") (some "Unknown instance type") ∧
    replicationHeadroom l none rt t = .panic ∧
    replicationHeadroom l none rt' t = .ok 0 (some "invalid replica type") :=
  ⟨headroom_nil l t, headroom_unknown l br t hunk, rh_unknown l br rt t hrt hunk,
    rh_nil_broker l rt t hrt, rh_invalid_role l none rt' t hrt'.1 hrt'.2⟩

theorem claim2_witness :
    ("leader" = "leader" ∨ "leader" = "follower") ∧
    ("other" ≠ "leader" ∧ "other" ≠ "follower") ∧
    lims0 brokUnknown.instanceType = none ∧
    (headroom lims0 none 5 = (limGet lims0 "minimum", some "Nil broker provided") ∧
     headroom lims0 (some brokUnknown) 5 =
       (limGet lims0 "minimum", some "Unknown instance type") ∧
     replicationHeadroom lims0 (some brokUnknown) "leader" 5 =
       .ok (limGet lims0 "minimum") (some "Unknown instance type") ∧
     replicationHeadroom lims0 none "leader" 5 = .panic ∧
     replicationHeadroom lims0 none "other" 5 = .ok 0 (some "invalid replica type")) :=
  ⟨Or.inl rfl, by decide, rfl,
    claim2_amended lims0 brokUnknown "leader" "other" 5 (Or.inl rfl) (by decide) rfl⟩

/-- C7: NewLimits returns an error exactly when Minimum ≤ 0 or one of the
three portion fields is ≤ 0 or > 100; a portion of exactly 100 is
accepted, 100.0001 is rejected. -/
theorem claim7_newlimits_validation :
    (∀ c : NewLimitsConfig, limitsIsError (NewLimits c) = true ↔
      (c.minimum ≤ 0 ∨ c.maximum ≤ 0 ∨ 100 < c.maximum ∨
       c.sourceMaximum ≤ 0 ∨ 100 < c.sourceMaximum ∨
       c.destinationMaximum ≤ 0 ∨ 100 < c.destinationMaximum)) ∧
    limitsIsError (NewLimits cfgBoundary) = false ∧
    limitsIsError (NewLimits cfgOverBoundary) = true := by
  refine ⟨fun c => ?_, ?_, ?_⟩
  · unfold NewLimits
    split_ifs with h1 h2 h3 h4 <;> simp [limitsIsError] <;>
      first
        | tauto
        | (push_neg at h1 h2 h3 h4; tauto)
  · norm_num [NewLimits, limitsIsError, cfgBoundary]
  · norm_num [NewLimits, limitsIsError, cfgOverBoundary]

theorem claim7_witness :
    limitsIsError (NewLimits cfgBadMin) = true ↔
      (cfgBadMin.minimum ≤ 0 ∨ cfgBadMin.maximum ≤ 0 ∨ 100 < cfgBadMin.maximum ∨
       cfgBadMin.sourceMaximum ≤ 0 ∨ 100 < cfgBadMin.sourceMaximum ∨
       cfgBadMin.destinationMaximum ≤ 0 ∨ 100 < cfgBadMin.destinationMaximum) :=
  claim7_newlimits_validation.1 cfgBadMin

theorem mapInsert_eq_or (base : Limits) (a : String) (v : ℚ) (k : String) :
    mapInsert base a v k = (([(a, v)] : List (String × ℚ)).lookup k).or (base k) := by
  by_cases h : k = a
  · subst h; simp [mapInsert, List.lookup]
  · simp [mapInsert, List.lookup, h, show (k == a) = false from beq_eq_false_iff_ne.mpr h]

theorem mergeCapacity_apply (entries : List (String × ℚ)) (base : Limits)
    (k : String) :
    mergeCapacity base entries k = (lastVal entries k).or (base k) := by
  induction entries generalizing base with
  | nil => simp [mergeCapacity, lastVal]
  | cons p rest ih =>
    show mergeCapacity (mapInsert base p.1 p.2) rest k = _
    rw [ih (mapInsert base p.1 p.2)]
    simp only [lastVal, List.reverse_cons, List.lookup_append, mapInsert_eq_or,
      Option.or_assoc]

theorem lastVal_eq_none (entries : List (String × ℚ)) (k : String)
    (h : k ∉ entries.map Prod.fst) : lastVal entries k = none := by
  rw [lastVal, List.lookup_eq_none_iff]
  intro p hp
  simp only [List.mem_reverse] at hp
  simp only [bne_iff_ne, ne_eq]
  intro hk
  exact h (by subst hk; exact List.mem_map_of_mem Prod.fst hp)

/-- C10: for a valid config, the four sentinel keys map to the validated scalars
whenever the capacity map does not contain them; but a capacity entry
named like a sentinel key silently overwrites the validated scalar,
because the capacity map is merged after the sentinel fields. -/
theorem claim10_capacity_overwrites_sentinels (c : NewLimitsConfig) (l : Limits)
    (hok : NewLimits c = .ok l) :
    (("minimum" ∉ c.capacityMap.map Prod.fst → l "minimum" = some c.minimum) ∧
     ("maximum" ∉ c.capacityMap.map Prod.fst → l "maximum" = some c.maximum) ∧
     ("srcMax" ∉ c.capacityMap.map Prod.fst → l "srcMax" = some c.sourceMaximum) ∧
     ("dstMax" ∉ c.capacityMap.map Prod.fst → l "dstMax" = some c.destinationMaximum)) ∧
    (∀ k v, lastVal c.capacityMap k = some v → l k = some v) := by
  unfold NewLimits at hok
  split_ifs at hok
  replace hok := Except.ok.inj hok
  subst hok
  constructor
  · refine ⟨fun h => ?_, fun h => ?_, fun h => ?_, fun h => ?_⟩ <;>
      · rw [mergeCapacity_apply, lastVal_eq_none _ _ h]
        simp +decide
  · intro k v h
    rw [mergeCapacity_apply, h]
    rfl

theorem claim10_witness :
    NewLimits cfgCollide = .ok (limOf (NewLimits cfgCollide)) ∧
    "maximum" ∉ cfgCollide.capacityMap.map Prod.fst ∧
    lastVal cfgCollide.capacityMap "minimum" = some 42 ∧
    limOf (NewLimits cfgCollide) "maximum" = some 90 ∧
    limOf (NewLimits cfgCollide) "minimum" = some 42 ∧
    limOf (NewLimits cfgCollide) "d2.2xlarge" = some 120 :=
  ⟨rfl, by decide, rfl,
    (claim10_capacity_overwrites_sentinels cfgCollide _ rfl).1.2.1 (by decide),
    (claim10_capacity_overwrites_sentinels cfgCollide _ rfl).2 "minimum" 42 rfl,
    (claim10_capacity_overwrites_sentinels cfgCollide _ rfl).2 "d2.2xlarge" 120 rfl⟩

/-- C8: on governor/API initialization with an existing override record,
content that parses as a bare integer is overwritten with the structured
ThrottleOverrideConfig whose rate is that integer and whose autoRemove is
false; content that does not parse as a bare integer is left untouched. -/
theorem claim8_legacy_migration (s : String) :
    (∀ rate : Int, atoi s = some rate →
      initAPIMigrate (.str s) = .cfg ⟨rate, false⟩) ∧
    (atoi s = none → initAPIMigrate (.str s) = .str s) := by
  constructor
  · intro rate h; simp [initAPIMigrate, h]
  · intro h; simp [initAPIMigrate, h]

theorem claim8_witness :
    atoi "150" = some 150 ∧ atoi "abc" = none ∧
    initAPIMigrate (.str "150") = .cfg ⟨150, false⟩ ∧
    initAPIMigrate (.str "abc") = .str "abc" :=
  ⟨by decide, by decide,
    (claim8_legacy_migration "150").1 150 (by decide),
    (claim8_legacy_migration "abc").2 (by decide)⟩

/-- C9: a POST to the throttle-set endpoint whose rate or autoremove
parameter fails to parse gets the parse error text as response body and
does not reach the set operation of the override store: the persisted record
is unchanged. -/
theorem claim9_parse_failure_no_mutation (q : List (String × String))
    (store : ZnodeContent) :
    (∀ e, parseRateParam q = .error e → setThrottle q store = (e, store)) ∧
    (∀ r e, parseRateParam q = .ok r → parseAutoRemoveParam q = .error e →
      setThrottle q store = (e, store)) := by
  constructor
  · intro e h; simp [setThrottle, h]
  · intro r e h1 h2; simp [setThrottle, h1, h2]

theorem claim9_witness :
    parseRateParam [("rate", "abc")] = .error "invalid rate parameter\n" ∧
    setThrottle [("rate", "abc")] (.cfg ⟨5, false⟩) =
      ("invalid rate parameter\n", .cfg ⟨5, false⟩) ∧
    parseRateParam [("rate", "200"), ("autoremove", "maybe")] = .ok 200 ∧
    parseAutoRemoveParam [("rate", "200"), ("autoremove", "maybe")] =
      .error "invalid autoremove parameter\n" ∧
    setThrottle [("rate", "200"), ("autoremove", "maybe")] (.cfg ⟨5, false⟩) =
      ("invalid autoremove parameter\n", .cfg ⟨5, false⟩) :=
  ⟨rfl,
    (claim9_parse_failure_no_mutation [("rate", "abc")] (.cfg ⟨5, false⟩)).1
      "invalid rate parameter\n" rfl,
    rfl, rfl,
    (claim9_parse_failure_no_mutation [("rate", "200"), ("autoremove", "maybe")]
      (.cfg ⟨5, false⟩)).2 200 "invalid autoremove parameter\n"
      rfl rfl⟩

end Autothrottle
